import Mathlib

/-!
# Verification of the AICoolEcommece transport and cache-synchronization layers

Shallow embedding of the repository's HTTP transport functions (retry
policies, error normalization, bearer-token handling) and of the
react-query cache-synchronization hooks (optimistic patches, rollback,
invalidation), together with theorems settling the specification claims.

Conventions of the embedding:
* An axios call is modelled by its outcome: either a parsed success value,
  or an `AxiosFailure` carrying the optional error response (absent for
  network errors / timeouts) and the error message string.
* A server is a function `Nat → Except AxiosFailure α` giving the outcome
  of the i-th attempt (0-based), so retry behaviour is a pure function of
  the server.
* A JavaScript `throw` is modelled by `Except.error` over `Thrown`, which
  distinguishes a raw transport-library (axios) error from a normalized
  `ProblemDetails` value; `Thrown.undefinedVal` models `throw undefined`
  (reachable in the sources only when a retry loop runs zero iterations).
* Recursive/looping retry code is embedded with an explicit fuel argument
  `k` equal to the number of retries still allowed, so that each function
  is structurally recursive; every function also returns the number of
  attempts actually performed.
-/

/-- RFC-7807-like problem details shape, as declared in
`src/services/paymentService.ts` (and identically in the other modules).
The source field `instance` is renamed `inst` because `instance` is a
Lean keyword; `type` is kept. -/
structure ProblemDetails where
  type : Option String
  title : Option String
  status : Option Nat
  detail : Option String
  inst : Option String
deriving DecidableEq

/-- The `error.response` part of an axios error: HTTP status plus the
optional structured error body (`error.response.data`), which the sources
cast to `ProblemDetails` when present. -/
structure ErrResponse where
  status : Nat
  data : Option ProblemDetails
deriving DecidableEq

/-- A raw axios error: `error.response` is `none` for network errors and
timeouts; `message` models `error.message`. -/
structure AxiosFailure where
  response : Option ErrResponse
  message : String
deriving DecidableEq

/-- A value thrown by a transport function: either the raw
transport-library error, a normalized `ProblemDetails`, or JavaScript
`undefined` (thrown by `throw lastError` when a loop body never ran). -/
inductive Thrown where
  | axiosErr (e : AxiosFailure)
  | problem (p : ProblemDetails)
  | undefinedVal
deriving DecidableEq

/-- `true` iff the thrown value is a raw transport-library (axios) error
rather than a normalized `ProblemDetails`. -/
def Except.isRawTransportError {α : Type} : Except Thrown α → Bool
  | .error (.axiosErr _) => true
  | _ => false

/-- The condition `!error.response || error.response.status >= 500` on a
raw axios failure. -/
def AxiosFailure.noRespOr500 (f : AxiosFailure) : Bool :=
  match f.response with
  | none => true
  | some r => 500 ≤ r.status

/-- The condition `!axiosError.response || axiosError.response.status >= 500`
evaluated after the JavaScript cast `error as AxiosError`: a thrown
`ProblemDetails` (or `undefined`) has no `response` property, so the
condition holds for it. -/
def Thrown.noRespOr500 : Thrown → Bool
  | .axiosErr f => f.noRespOr500
  | .problem _ => true
  | .undefinedVal => true

/-- The condition `axiosError.response && axiosError.response.status < 500`
after the cast `error as AxiosError` (false whenever there is no
`response` property, hence for normalized `ProblemDetails` values). -/
def Thrown.respBelow500 : Thrown → Bool
  | .axiosErr f =>
    match f.response with
    | some r => decide (r.status < 500)
    | none => false
  | .problem _ => false
  | .undefinedVal => false

namespace PaymentService

/-- `MAX_RETRIES` of `src/services/paymentService.ts`. -/
def MAX_RETRIES : Nat := 2

/-- The no-retry tail of `postPayment` (`src/services/paymentService.ts`
lines 81–84): `if (axios.isAxiosError(error) && error.response?.data)
throw error.response.data as ProblemDetails; throw error`. -/
def finalThrow (f : AxiosFailure) : Thrown :=
  match f.response with
  | some r =>
    match r.data with
    | some p => .problem p
    | none => .axiosErr f
  | none => .axiosErr f

/-- `postPayment` of `src/services/paymentService.ts` (lines 65–86) as a
function of the server behaviour. `attempt` is the current value of the
`retries` counter (which is also the 0-based attempt index) and `k` is
`MAX_RETRIES - attempt`, the number of retries still allowed; the second
component of the result is the number of attempts performed. The caught
error of the axios call is always an axios error, so
`axios.isAxiosError(error)` is `true`. -/
def postPaymentGo {α : Type} (server : Nat → Except AxiosFailure α) :
    Nat → Nat → Except Thrown α × Nat
  | attempt, 0 =>
    match server attempt with
    | .ok a => (.ok a, 1)
    | .error f => (.error (finalThrow f), 1)
  | attempt, k + 1 =>
    match server attempt with
    | .ok a => (.ok a, 1)
    | .error f =>
      if f.noRespOr500 then
        let p := postPaymentGo server (attempt + 1) k
        (p.1, p.2 + 1)
      else
        (.error (finalThrow f), 1)

/-- `postPayment(data)` with the default `retries = 0`: up to
`MAX_RETRIES` recursive retries after the initial attempt. -/
def postPayment {α : Type} (server : Nat → Except AxiosFailure α) :
    Except Thrown α × Nat :=
  postPaymentGo server 0 MAX_RETRIES

end PaymentService

namespace InvoiceService

/-- `MAX_RETRIES` of `src/services/invoiceService.ts`. -/
def MAX_RETRIES : Nat := 2

/-- The loop body of `retryRequest` in `src/services/invoiceService.ts`
(lines 32–53). `fn i` is the outcome of the `i`-th invocation of `fn`;
`k = retries - attempt` is the number of loop iterations remaining after
the current one (`k = 0` iff `attempt === retries`, in which case the
caught error is rethrown). The second result component counts the
invocations of `fn`. -/
def retryRequestGo {α : Type} (fn : Nat → Except Thrown α) :
    Nat → Nat → Except Thrown α × Nat
  | attempt, 0 =>
    match fn attempt with
    | .ok a => (.ok a, 1)
    | .error e => (.error e, 1)
  | attempt, k + 1 =>
    match fn attempt with
    | .ok a => (.ok a, 1)
    | .error e =>
      if e.respBelow500 then
        (.error e, 1)
      else
        let p := retryRequestGo fn (attempt + 1) k
        (p.1, p.2 + 1)

/-- `retryRequest(fn)` with the default `retries = MAX_RETRIES`. -/
def retryRequest {α : Type} (fn : Nat → Except Thrown α) :
    Except Thrown α × Nat :=
  retryRequestGo fn 0 MAX_RETRIES

/-- The inner thunk passed by `getInvoices` to `retryRequest`
(`src/services/invoiceService.ts` lines 68–80): it performs the axios
call and, on failure, rethrows `axiosError.response.data` when present
(a `ProblemDetails`, which carries no `response` property), otherwise the
raw error. -/
def getInvoicesInner {α : Type} (server : Nat → Except AxiosFailure α)
    (attempt : Nat) : Except Thrown α :=
  match server attempt with
  | .ok a => .ok a
  | .error f =>
    match f.response with
    | some r =>
      match r.data with
      | some p => .error (.problem p)
      | none => .error (.axiosErr f)
    | none => .error (.axiosErr f)

/-- `getInvoices(params)` as a function of the server behaviour. -/
def getInvoices {α : Type} (server : Nat → Except AxiosFailure α) :
    Except Thrown α × Nat :=
  retryRequest (getInvoicesInner server)

end InvoiceService

namespace SubscriptionsService

/-- `MAX_RETRIES` of the subscriptions service (`src/unnamed/part_001`). -/
def MAX_RETRIES : Nat := 3

/-- The loop of `retryRequest` in the subscriptions service
(`src/unnamed/part_001` lines 43–63): `for (attempt = 0; attempt < retries;
attempt++)`, retrying when `!axiosError.response || status >= 500`,
rethrowing immediately otherwise, and throwing `lastError` (initially
`undefined`) when the loop exhausts. `k` is the number of loop iterations
still allowed; `last` is the current value of `lastError`. -/
def retryRequestGo {α : Type} (fn : Nat → Except Thrown α) :
    Nat → Nat → Thrown → Except Thrown α × Nat
  | _, 0, last => (.error last, 0)
  | attempt, k + 1, _ =>
    match fn attempt with
    | .ok a => (.ok a, 1)
    | .error e =>
      if e.noRespOr500 then
        let p := retryRequestGo fn (attempt + 1) k e
        (p.1, p.2 + 1)
      else
        (.error e, 1)

/-- `retryRequest(fn)` with the default `retries = MAX_RETRIES = 3`. -/
def retryRequest {α : Type} (fn : Nat → Except Thrown α) :
    Except Thrown α × Nat :=
  retryRequestGo fn 0 MAX_RETRIES .undefinedVal

/-- `getSubscriptions(params)`: the thunk is a bare axios call, so its
failures reach `retryRequest` as raw axios errors. -/
def getSubscriptions {α : Type} (server : Nat → Except AxiosFailure α) :
    Except Thrown α × Nat :=
  retryRequest (fun i => (server i).mapError .axiosErr)

end SubscriptionsService

namespace PaymentMethodService

/-- `MAX_RETRIES` of `src/services/payment-methodService.ts`. -/
def MAX_RETRIES : Nat := 3

/-- The synthesized generic problem of `getPaymentMethods`
(lines 80–84): `{ title: 'Unknown error', detail: error.message ||
'An unknown error occurred', status: 500 }`. The `||` fallback fires on
the empty (falsy) message string. -/
def synthProblem (message : String) : ProblemDetails :=
  { type := none
    title := some "Unknown error"
    status := some 500
    detail := some (if message = "" then "An unknown error occurred" else message)
    inst := none }

/-- The final-failure normalization of `getPaymentMethods` (lines 77–84):
`if (error.response && error.response.data) throw error.response.data;
throw { title: 'Unknown error', ... }`. -/
def finalThrow (f : AxiosFailure) : Thrown :=
  match f.response with
  | some r =>
    match r.data with
    | some p => .problem p
    | none => .problem (synthProblem f.message)
  | none => .problem (synthProblem f.message)

/-- `getPaymentMethods` of `src/services/payment-methodService.ts`
(lines 58–86): recursive self-call with `retryCount + 1` on *any* error
while `retryCount < MAX_RETRIES` (an unconditional retry policy), then
normalization of the final error. `attempt` is the current `retryCount`
and `k = MAX_RETRIES - retryCount`. -/
def getPaymentMethodsGo {α : Type} (server : Nat → Except AxiosFailure α) :
    Nat → Nat → Except Thrown α × Nat
  | attempt, 0 =>
    match server attempt with
    | .ok a => (.ok a, 1)
    | .error f => (.error (finalThrow f), 1)
  | attempt, k + 1 =>
    match server attempt with
    | .ok a => (.ok a, 1)
    | .error _ =>
      let p := getPaymentMethodsGo server (attempt + 1) k
      (p.1, p.2 + 1)

/-- `getPaymentMethods(params)` with the default `retryCount = 0`. -/
def getPaymentMethods {α : Type} (server : Nat → Except AxiosFailure α) :
    Except Thrown α × Nat :=
  getPaymentMethodsGo server 0 MAX_RETRIES

end PaymentMethodService

/-!
## Bearer-token state and interceptors

Each service module owns its own module-level token variable (`authToken`
or `accessToken`), read by that module's request interceptor; there is no
shared process-wide store (the payment / payment-methods / customers
modules read `localStorage` instead, modelled here as a further
independent cell). `ModuleTokens` collects these module-level cells so
cross-module (non-)propagation can be stated.
-/

/-- The module-level token variables of the service modules. -/
structure ModuleTokens where
  /-- `authToken` of the identity service (`src/unnamed/part_003`). -/
  identityAuthToken : Option String
  /-- `accessToken` of the subscriptions service (`src/unnamed/part_001`). -/
  subsAccessToken : Option String
  /-- `authToken` of `src/services/invoiceService.ts`. -/
  invoicesAuthToken : Option String
  /-- `accessToken` of `src/services/authorizeService.ts`. -/
  authorizeAccessToken : Option String
  /-- `accessToken` of `src/services/countrieService.ts`. -/
  countriesAccessToken : Option String
  /-- `accessToken` of `src/services/payment-transactionService.ts`. -/
  paymentTransactionsAccessToken : Option String
  /-- `localStorage` item `access_token`, read by
  `src/services/paymentService.ts` and
  `src/services/payment-methodService.ts`. -/
  localStorageAccessToken : Option String
deriving DecidableEq

/-- The request-interceptor header computation common to all modules:
with a (truthy) token present the `Authorization` header is
`Bearer <token>`, otherwise the header is omitted. -/
def authHeader (token : Option String) : Option String :=
  match token with
  | some t => some ("Bearer " ++ t)
  | none => none

namespace AuthorizeService

/-- The response interceptor of `src/services/authorizeService.ts`
(lines 32–40): a 401 clears the module's `accessToken`; every other
status leaves it unchanged (the error is re-rejected either way). -/
def onResponseError (token : Option String) (status : Nat) : Option String :=
  if status = 401 then none else token

end AuthorizeService

namespace IdentityService

/-- The response interceptor of the identity service
(`src/unnamed/part_003` lines 24–32): a 401 clears the module's
`authToken`. -/
def onResponseError (token : Option String) (status : Nat) : Option String :=
  if status = 401 then none else token

/-- `TokenResponse` as used by `postIdentityToken`: the response carries a
`token` string. -/
structure TokenResponse where
  token : String
deriving DecidableEq

/-- The success path of `postIdentityToken` (`src/unnamed/part_003`
lines 43–47): `if (response.data && response.data.token)
setAuthToken(response.data.token)` — the update touches only the identity
module's own `authToken` variable; the empty string is falsy and sets
nothing. -/
def applySuccess (g : ModuleTokens) (resp : TokenResponse) : ModuleTokens :=
  if resp.token = "" then g
  else { g with identityAuthToken := some resp.token }

end IdentityService

namespace CountrieService

/-- The response interceptor of `src/services/countrieService.ts`
(lines 31–39): the 401 branch contains only the comment
`// handle token refresh if needed` — the token is left unchanged for
every status. -/
def onResponseError (token : Option String) (_status : Nat) : Option String :=
  token

end CountrieService

namespace PaymentTransactionService

/-- The response interceptor of
`src/services/payment-transactionService.ts` (lines 26–34): the 401
branch contains only the comment `// handle token refresh logic here if
needed` — the token is left unchanged for every status. -/
def onResponseError (token : Option String) (_status : Nat) : Option String :=
  token

end PaymentTransactionService

namespace PaymentService

/-- The response interceptor of `src/services/paymentService.ts`
(lines 48–56): a 401 sets `window.location.href = '/login'` but does not
touch the `localStorage` token. Result: (token after, whether a redirect
to `/login` happened). -/
def onResponseError (token : Option String) (status : Nat) :
    Option String × Bool :=
  (token, status = 401)

end PaymentService

/-!
## Cache-synchronization layer

The react-query cache is modelled as a total function from query keys to
optional cached values (per value type). A query key is a list of key
parts; parameter objects appearing inside keys are embedded as dedicated
`KeyPart` constructors so that, e.g., `['customers']` and
`['customers', params]` are distinct keys.
-/

/-- Query parameters of the customers query (`CustomersQueryParams` in
`src/hooks/usecustomer.ts`). -/
structure CustomersQueryParams where
  page : Option Nat
  pageSize : Option Nat
deriving DecidableEq

/-- Query parameters of the subscriptions query
(`GetSubscriptionsParams`, `src/unnamed/part_001`), restricted to the
declared fields. -/
structure GetSubscriptionsParams where
  page : Option Nat
  pageSize : Option Nat
deriving DecidableEq

/-- One element of a react-query key: a string literal or an embedded
parameter object. -/
inductive KeyPart where
  | str (s : String)
  | customersParams (p : CustomersQueryParams)
  | pmParams (page : Option Nat) (pageSize : Option Nat)
  | subsParams (p : GetSubscriptionsParams)
deriving DecidableEq

/-- A react-query query key. -/
abbrev QueryKey := List KeyPart

/-- Key filtering used by `cancelQueries` / `invalidateQueries` /
`getQueriesData` / `setQueriesData`: a filter key matches every cache key
it is a prefix of. -/
def keyMatches : QueryKey → QueryKey → Bool
  | [], _ => true
  | _ :: _, [] => false
  | a :: as, b :: bs => decide (a = b) && keyMatches as bs

/-- `queryClient.setQueryData(k, v)` on a cache of values of type `α`
(modelled as a total map to `Option α`). -/
def setQueryData {α : Type} (c : QueryKey → Option α) (k : QueryKey)
    (v : Option α) : QueryKey → Option α :=
  fun k' => if k' = k then v else c k'

/-- Address shape of the customers module (`src/unnamed/part_000`);
the optional union-typed fields are modelled as optional strings. -/
structure Address where
  street : String
  city : String
  state : Option String
  postalCode : String
  country : String
  addrKind : Option String
  isDefault : Option Bool
  isPrimary : Option Bool
  addressType : Option String
deriving DecidableEq

/-- `PersonalInfo` of the customers module. -/
structure PersonalInfo where
  firstName : String
  lastName : String
  dateOfBirth : Option String
  gender : Option String
deriving DecidableEq

/-- `ContactInfo` of the customers module. -/
structure ContactInfo where
  email : String
  phone : Option String
  phoneNumber : Option String
  preferredContactMethod : Option String
deriving DecidableEq

/-- `PostCustomerRequest` of the customers module. -/
structure PostCustomerRequest where
  currency : String
  personalInfo : Option PersonalInfo
  contactInfo : Option ContactInfo
  addresses : List Address
deriving DecidableEq

/-- `GetCustomerResponse` of the customers module. -/
structure GetCustomerResponse where
  accountNumber : String
  firstName : String
  lastName : String
  email : String
  currency : String
  phoneNumber : String
  addresses : List Address
  additionalEmails : List String
  accountId : String
deriving DecidableEq

/-- The customers list shape cached under the customers keys:
`{ entries, total, page, pageSize }`. -/
structure CustomersList where
  entries : List GetCustomerResponse
  total : Nat
  page : Nat
  pageSize : Nat
deriving DecidableEq

namespace CustomerHooks

/-- The cache key read and written by `useCreateCustomer`'s `onMutate`
(`src/hooks/usecustomer.ts` lines 49–52): the bare `['customers']`. -/
def createKey : QueryKey := [.str "customers"]

/-- The cache key of the `useCustomers` query (line 27):
`['customers', params]`. -/
def customersQueryKey (params : CustomersQueryParams) : QueryKey :=
  [.str "customers", .customersParams params]

/-- The optimistic placeholder entry synthesized by `useCreateCustomer`'s
`onMutate` (lines 55–65); `now` models `Date.now()`. -/
def optimisticCustomer (n : PostCustomerRequest) (now : Nat) :
    GetCustomerResponse :=
  { accountNumber := "optimistic-" ++ toString now
    firstName := (n.personalInfo.map (·.firstName)).getD ""
    lastName := (n.personalInfo.map (·.lastName)).getD ""
    email := (n.contactInfo.map (·.email)).getD ""
    currency := n.currency
    phoneNumber := ((n.contactInfo.map (·.phone)).getD none).getD ""
    addresses := n.addresses
    additionalEmails := []
    accountId := "optimistic-" ++ toString now }

/-- The optimistic patch of `useCreateCustomer` applied to a present
cache value (lines 52–69): prepend the placeholder and bump `total`. -/
def createPatch (p : CustomersList) (n : PostCustomerRequest) (now : Nat) :
    CustomersList :=
  { p with entries := optimisticCustomer n now :: p.entries
           total := p.total + 1 }

/-- `useCreateCustomer`'s `onMutate` (lines 48–72) acting on the customers
cache: snapshot `['customers']`, patch it when present, and return the new
cache together with the context (`{ previous }`). -/
def createOnMutate (c : QueryKey → Option CustomersList)
    (n : PostCustomerRequest) (now : Nat) :
    (QueryKey → Option CustomersList) × Option CustomersList :=
  match c createKey with
  | some p => (setQueryData c createKey (some (createPatch p n now)), some p)
  | none => (c, none)

/-- `useCreateCustomer`'s `onError` (lines 73–77): restore the snapshot
when the context holds one. -/
def createOnError (c : QueryKey → Option CustomersList)
    (ctx : Option CustomersList) : QueryKey → Option CustomersList :=
  match ctx with
  | some p => setQueryData c createKey (some p)
  | none => c

end CustomerHooks

/-- `CreditCardInfo` of `src/services/payment-methodService.ts`. -/
structure CreditCardInfo where
  id : String
  expirationMonth : String
  cardNumber : String
  expirationYear : String
  cardType : String
  cardHolderName : String
deriving DecidableEq

/-- `GetPaymentMethodResponse` of `src/services/payment-methodService.ts`
(the declared `creditCardData: null` is modelled as an optional field). -/
structure GetPaymentMethodResponse where
  id : String
  isDefault : Bool
  paymentMethodType : String
  creditCardData : Option CreditCardInfo
deriving DecidableEq

/-- The payment-methods list shape cached under the payment-methods keys. -/
structure PaymentMethodsList where
  entries : List GetPaymentMethodResponse
  total : Nat
  page : Nat
  pageSize : Nat
deriving DecidableEq

namespace PaymentMethodHooks

/-- `PAYMENT_METHODS_QUERY_KEY` filter prefix of
`src/hooks/usepayment-method.ts`. -/
def pmKey : QueryKey := [.str "payment-methods"]

/-- The optimistic placeholder of `useCreatePaymentMethod`'s `onMutate`
(`src/hooks/usepayment-method.ts` lines 50–55); `rid` models
`Math.random().toString(36).slice(2)`. -/
def optimisticPM (newMethodType : String) (rid : String) :
    GetPaymentMethodResponse :=
  { id := "optimistic-" ++ rid
    isDefault := false
    paymentMethodType := newMethodType
    creditCardData := none }

/-- The `setQueriesData` updater of `useCreatePaymentMethod`'s `onMutate`
(lines 43–60): missing value left alone, otherwise the placeholder is
prepended to `entries`. -/
def createUpdater (newMethodType : String) (rid : String) :
    Option PaymentMethodsList → Option PaymentMethodsList
  | none => none
  | some old => some { old with entries := optimisticPM newMethodType rid :: old.entries }

/-- The `setQueriesData` updater of `useDeletePaymentMethod`'s `onMutate`
(lines 83–92): drop the entries whose `id` equals the deleted
`paymentMethodId`. -/
def deleteUpdater (paymentMethodId : String) :
    Option PaymentMethodsList → Option PaymentMethodsList
  | none => none
  | some old => some { old with entries := old.entries.filter (fun m => m.id ≠ paymentMethodId) }

/-- `queryClient.getQueriesData([PAYMENT_METHODS_QUERY_KEY])`: the
`(key, value)` pairs of the keys matching the filter. `keys` enumerates
the keys present in the cache that match the `['payment-methods']`
prefix. -/
def getQueriesData (c : QueryKey → Option PaymentMethodsList)
    (keys : List QueryKey) : List (QueryKey × Option PaymentMethodsList) :=
  keys.map (fun k => (k, c k))

/-- `queryClient.setQueriesData([PAYMENT_METHODS_QUERY_KEY], f)`: apply
the updater at every matching key. -/
def setQueriesData (c : QueryKey → Option PaymentMethodsList)
    (keys : List QueryKey)
    (f : Option PaymentMethodsList → Option PaymentMethodsList) :
    QueryKey → Option PaymentMethodsList :=
  fun k => if k ∈ keys then f (c k) else c k

/-- `useCreatePaymentMethod`'s `onMutate` (lines 40–62): snapshot all
matching pairs, patch all matching keys, return new cache and context. -/
def createOnMutate (c : QueryKey → Option PaymentMethodsList)
    (keys : List QueryKey) (newMethodType : String) (rid : String) :
    (QueryKey → Option PaymentMethodsList) ×
      List (QueryKey × Option PaymentMethodsList) :=
  (setQueriesData c keys (createUpdater newMethodType rid),
   getQueriesData c keys)

/-- The `onError` restore loop shared by `useCreatePaymentMethod` and
`useDeletePaymentMethod` (lines 63–69 and 95–101): for each snapshotted
pair, `setQueryData(key, value)`. -/
def restorePrev (c : QueryKey → Option PaymentMethodsList)
    (prev : List (QueryKey × Option PaymentMethodsList)) :
    QueryKey → Option PaymentMethodsList :=
  prev.foldl (fun acc kv => setQueryData acc kv.1 kv.2) c

end PaymentMethodHooks

namespace RecurringPaymentMethodHook

/-- The `setQueryData` updater of `useRecurringPaymentMethod`'s
`onMutate` (`src/unnamed/part_005` lines 25–35): the entry whose `id` is
the mutated `paymentMethodId` gets `isDefault: true`, every other entry
gets `isDefault: false`; a missing or entry-less value is returned
unchanged (a present `entries` array is always truthy). -/
def updater (paymentMethodId : String) :
    Option PaymentMethodsList → Option PaymentMethodsList
  | none => none
  | some old =>
    some { old with
            entries := old.entries.map (fun pm =>
              if pm.id = paymentMethodId then { pm with isDefault := true }
              else { pm with isDefault := false }) }

/-- `useRecurringPaymentMethod`'s `onMutate` (lines 21–37) on the
`['payment-methods']` entry: snapshot, patch, return cache and context
(`{ previous }`). -/
def onMutate (c : QueryKey → Option PaymentMethodsList)
    (paymentMethodId : String) :
    (QueryKey → Option PaymentMethodsList) × Option PaymentMethodsList :=
  (setQueryData c PaymentMethodHooks.pmKey
     (updater paymentMethodId (c PaymentMethodHooks.pmKey)),
   c PaymentMethodHooks.pmKey)

end RecurringPaymentMethodHook

/-!
## Invalidation commands of the mutation handlers

For the invalidation claims, each react-query handler body is embedded as
the list of cache commands it issues, in source order. On a failed
mutation react-query runs `onError` then `onSettled` (when defined); on a
successful one `onSuccess` then `onSettled`.
-/

/-- A cache command issued by a mutation handler. -/
inductive CacheCmd where
  | cancelQueries (filter : QueryKey)
  | setData (key : QueryKey)
  | invalidateQueries (filter : QueryKey)
deriving DecidableEq

/-- The filters of the `invalidateQueries` commands inside a handler
trace. -/
def invalidatedKeys (cmds : List CacheCmd) : List QueryKey :=
  cmds.filterMap (fun c =>
    match c with
    | .invalidateQueries k => some k
    | _ => none)

namespace PaymentMethodHooks

/-- `useCreatePaymentMethod.onError` (lines 63–69) as commands: one
`setQueryData` per snapshotted pair, no invalidation. -/
def createOnErrorCmds (prevKeys : List QueryKey) : List CacheCmd :=
  prevKeys.map .setData

/-- `useCreatePaymentMethod.onSettled` (lines 70–72). -/
def createOnSettledCmds : List CacheCmd :=
  [.invalidateQueries pmKey]

/-- Commands run when a `useCreatePaymentMethod` mutation fails:
`onError` then `onSettled`. -/
def createFailureCmds (prevKeys : List QueryKey) : List CacheCmd :=
  createOnErrorCmds prevKeys ++ createOnSettledCmds

end PaymentMethodHooks

namespace RecurringPaymentMethodHook

/-- `useRecurringPaymentMethod.onError` (`src/unnamed/part_005`
lines 38–42) as commands: restore the snapshot when present; no
invalidation. (The user `rollback`/`onError` callbacks issue no cache
commands.) -/
def onErrorCmds (hasPrevious : Bool) : List CacheCmd :=
  if hasPrevious then [.setData PaymentMethodHooks.pmKey] else []

/-- `useRecurringPaymentMethod.onSuccess` (lines 43–47). -/
def onSuccessCmds : List CacheCmd :=
  [.invalidateQueries PaymentMethodHooks.pmKey,
   .invalidateQueries [.str "default-payment-method"]]

/-- Commands run when a `useRecurringPaymentMethod` mutation fails: the
hook defines no `onSettled`, so only `onError` runs. -/
def failureCmds (hasPrevious : Bool) : List CacheCmd :=
  onErrorCmds hasPrevious

/-- Commands run when a `useRecurringPaymentMethod` mutation succeeds. -/
def successCmds : List CacheCmd :=
  onSuccessCmds

end RecurringPaymentMethodHook

namespace SubscriptionHooks

/-- `useCreateSubscription.onError` (`src/hooks/usecountrie.ts`
lines 98–102) as commands. -/
def createOnErrorCmds (hasPrev : Bool) : List CacheCmd :=
  if hasPrev then [.setData [.str "subscriptions", .subsParams ⟨none, none⟩]]
  else []

/-- `useCreateSubscription.onSettled` (lines 103–105). -/
def createOnSettledCmds : List CacheCmd :=
  [.invalidateQueries [.str "subscriptions"]]

/-- Commands run when a `useCreateSubscription` mutation fails. -/
def createFailureCmds (hasPrev : Bool) : List CacheCmd :=
  createOnErrorCmds hasPrev ++ createOnSettledCmds

end SubscriptionHooks

/-!
## Interleaved mutations on one cache entry

`MutTrace` captures the effect of the hooks' `onMutate` handlers on a
single cache entry together with the rollback contexts of the mutations
still unreconciled: every `onMutate` in the sources snapshots the current
value with `getQueryData` and then overwrites it with its patch, both
synchronously, so beginning a mutation pushes the pre-patch value onto
the stack of pending rollback contexts. Rolling back a mutation restores
its own snapshot (the hooks' `onError`).
-/

/-- A single cache entry plus the rollback snapshots of the pending
(unreconciled) mutations, newest first. -/
structure MutTrace (V : Type) where
  cache : Option V
  snapshots : List (Option V)
deriving DecidableEq

/-- Beginning a mutation: the `onMutate` snapshot-then-patch step. -/
def MutTrace.beginMutation {V : Type} (patch : Option V → Option V)
    (t : MutTrace V) : MutTrace V :=
  { cache := patch t.cache, snapshots := t.cache :: t.snapshots }

/-- Failing the most recent pending mutation: its `onError` restores the
snapshot it captured. -/
def MutTrace.rollbackTop {V : Type} (t : MutTrace V) : MutTrace V :=
  match t.snapshots with
  | [] => t
  | s :: rest => { cache := s, snapshots := rest }

/-!
## Server families and counting lemmas
-/

/-- A server whose every attempt fails with the given HTTP status, with
attempt-indexed error body and message: the general shape of an
"always fails with status `st`" server. -/
def alwaysStatus {α : Type} (st : Nat) (body : Nat → Option ProblemDetails)
    (msg : Nat → String) : Nat → Except AxiosFailure α :=
  fun i => .error { response := some { status := st, data := body i }, message := msg i }

/-- A server whose every attempt fails with a pure network error (no
response), with attempt-indexed message. -/
def alwaysNetworkError {α : Type} (msg : Nat → String) :
    Nat → Except AxiosFailure α :=
  fun i => .error { response := none, message := msg i }

theorem PaymentService.postPaymentGo_count_503 {α : Type}
    (body : Nat → Option ProblemDetails) (msg : Nat → String) :
    ∀ k attempt,
      ((postPaymentGo (alwaysStatus (α := α) 503 body msg) attempt k)).2 = k + 1 := by
  intro k
  induction k with
  | zero => intro attempt; rfl
  | succ k ih =>
    intro attempt
    simp only [postPaymentGo, alwaysStatus, AxiosFailure.noRespOr500]
    norm_num [ih (attempt + 1)]

theorem InvoiceService.getInvoicesInner_503_not_below500 {α : Type}
    (body : Nat → Option ProblemDetails) (msg : Nat → String) (attempt : Nat) :
    ∃ e, getInvoicesInner (alwaysStatus (α := α) 503 body msg) attempt = .error e ∧
      e.respBelow500 = false := by
  cases h : body attempt with
  | none =>
    exact ⟨.axiosErr ⟨some ⟨503, body attempt⟩, msg attempt⟩,
      by simp [getInvoicesInner, alwaysStatus, h], by simp [Thrown.respBelow500, h]⟩
  | some p =>
    exact ⟨.problem p, by simp [getInvoicesInner, alwaysStatus, h],
      by simp [Thrown.respBelow500]⟩

theorem InvoiceService.retryRequestGo_invocation_count {α : Type}
    (fn : Nat → Except Thrown α)
    (hfn : ∀ i, ∃ e, fn i = .error e ∧ e.respBelow500 = false) :
    ∀ k attempt, (retryRequestGo fn attempt k).2 = k + 1 := by
  intro k
  induction k with
  | zero =>
    intro attempt
    obtain ⟨e, he, _⟩ := hfn attempt
    simp [retryRequestGo, he]
  | succ k ih =>
    intro attempt
    obtain ⟨e, he, hb⟩ := hfn attempt
    simp [retryRequestGo, he, hb, ih (attempt + 1)]

theorem SubscriptionsService.retryRequestGo_attempt_count {α : Type}
    (fn : Nat → Except Thrown α)
    (hfn : ∀ i, ∃ e, fn i = .error e ∧ e.noRespOr500 = true) :
    ∀ k attempt last, (retryRequestGo fn attempt k last).2 = k := by
  intro k
  induction k with
  | zero => intro attempt last; rfl
  | succ k ih =>
    intro attempt last
    obtain ⟨e, he, hb⟩ := hfn attempt
    simp [retryRequestGo, he, hb, ih (attempt + 1)]

/-- C1. Under an always-503 server the subscriptions-service
`retryRequest`, configured with `retries = MAX_RETRIES = 3`, performs
exactly 3 attempts — not the 4 (= N+1) the claim asserts: its loop
`for (attempt = 0; attempt < retries; attempt++)` bounds the *total*
attempts by `retries`. -/
theorem claim_C1_counterexample :
    (SubscriptionsService.getSubscriptions
      (alwaysStatus (α := Unit) 503 (fun _ => none) (fun _ => ""))).2 = 3 ∧
    (SubscriptionsService.getSubscriptions
      (alwaysStatus (α := Unit) 503 (fun _ => none) (fun _ => ""))).2 ≠ 3 + 1 := by
  constructor
  · rfl
  · decide

/-- C1 (amended). Under an always-503 server, `postPayment`
(`MAX_RETRIES = 2`) and `getInvoices` (`MAX_RETRIES = 2`) are attempted
exactly N+1 = 3 times; the subscriptions-service `retryRequest`
(`retries = 3`) is attempted exactly 3 times in total, its ceiling
counting attempts rather than retries. -/
theorem claim_C1_retry_ceilings (α : Type)
    (body : Nat → Option ProblemDetails) (msg : Nat → String) :
    (PaymentService.postPayment (alwaysStatus (α := α) 503 body msg)).2 = 3 ∧
    (InvoiceService.getInvoices (alwaysStatus (α := α) 503 body msg)).2 = 3 ∧
    (SubscriptionsService.getSubscriptions (alwaysStatus (α := α) 503 body msg)).2 = 3 := by
  refine ⟨?_, ?_, ?_⟩
  · exact PaymentService.postPaymentGo_count_503 body msg 2 0
  · exact InvoiceService.retryRequestGo_invocation_count _
      (InvoiceService.getInvoicesInner_503_not_below500 body msg) 2 0
  · refine SubscriptionsService.retryRequestGo_attempt_count _ ?_ 3 0 .undefinedVal
    intro i
    exact ⟨.axiosErr ⟨some ⟨503, body i⟩, msg i⟩, rfl,
      by simp [Thrown.noRespOr500, AxiosFailure.noRespOr500]⟩

/-- C2. `getInvoices` uses the conditional retry policy, yet a 400
response carrying a structured error body is attempted 3 times, not
once: the inner catch rethrows `error.response.data` (a `ProblemDetails`
without a `response` property), so the retry predicate treats the
failure as retryable. -/
theorem claim_C2_counterexample :
    (InvoiceService.getInvoices
      (alwaysStatus (α := Unit) 400
        (fun _ => some ⟨none, some "Bad", some 400, none, none⟩)
        (fun _ => ""))).2 = 3 ∧
    (InvoiceService.getInvoices
      (alwaysStatus (α := Unit) 400
        (fun _ => some ⟨none, some "Bad", some 400, none, none⟩)
        (fun _ => ""))).2 ≠ 1 := by
  constructor
  · rfl
  · decide

/-- C2 (amended). On a first-attempt 400, `postPayment` and the
subscriptions-service `retryRequest` are attempted exactly once, and so
is `getInvoices` when the 400 carries no structured body; but
`getInvoices` retries a 400 carrying a structured body up to its ceiling
(3 attempts), because its inner normalization hides the response from
the retry predicate. -/
theorem claim_C2_no_retry_on_4xx (α : Type)
    (body : Nat → Option ProblemDetails) (pd : Nat → ProblemDetails)
    (msg : Nat → String) :
    (PaymentService.postPayment (alwaysStatus (α := α) 400 body msg)).2 = 1 ∧
    (SubscriptionsService.getSubscriptions (alwaysStatus (α := α) 400 body msg)).2 = 1 ∧
    (InvoiceService.getInvoices (alwaysStatus (α := α) 400 (fun _ => none) msg)).2 = 1 ∧
    (InvoiceService.getInvoices (alwaysStatus (α := α) 400 (fun i => some (pd i)) msg)).2 = 3 := by
  refine ⟨?_, ?_, ?_, ?_⟩
  · simp [PaymentService.postPayment, PaymentService.MAX_RETRIES,
      PaymentService.postPaymentGo, alwaysStatus, AxiosFailure.noRespOr500]
  · simp [SubscriptionsService.getSubscriptions, SubscriptionsService.retryRequest,
      SubscriptionsService.MAX_RETRIES, SubscriptionsService.retryRequestGo,
      alwaysStatus, Except.mapError, Thrown.noRespOr500, AxiosFailure.noRespOr500]
  · simp [InvoiceService.getInvoices, InvoiceService.retryRequest,
      InvoiceService.MAX_RETRIES, InvoiceService.retryRequestGo,
      InvoiceService.getInvoicesInner, alwaysStatus, Thrown.respBelow500]
  · simp [InvoiceService.getInvoices, InvoiceService.retryRequest,
      InvoiceService.MAX_RETRIES, InvoiceService.retryRequestGo,
      InvoiceService.getInvoicesInner, alwaysStatus, Thrown.respBelow500]

theorem PaymentMethodService.finalThrow_problem (f : AxiosFailure) :
    ∃ p, finalThrow f = .problem p := by
  unfold finalThrow
  rcases f with ⟨resp, m⟩
  cases resp with
  | none => exact ⟨synthProblem m, rfl⟩
  | some r =>
    cases h : r.data with
    | none => exact ⟨synthProblem m, by simp [h]⟩
    | some p => exact ⟨p, by simp [h]⟩

theorem PaymentMethodService.getPaymentMethodsGo_not_raw {α : Type} :
    ∀ k attempt (server : Nat → Except AxiosFailure α),
      ((getPaymentMethodsGo server attempt k).1).isRawTransportError = false := by
  intro k
  induction k with
  | zero =>
    intro attempt server
    cases h : server attempt with
    | ok a => simp [getPaymentMethodsGo, h, Except.isRawTransportError]
    | error f =>
      obtain ⟨p, hp⟩ := finalThrow_problem f
      simp [getPaymentMethodsGo, h, hp, Except.isRawTransportError]
  | succ k ih =>
    intro attempt server
    cases h : server attempt with
    | ok a => simp [getPaymentMethodsGo, h, Except.isRawTransportError]
    | error f => simpa [getPaymentMethodsGo, h] using ih (attempt + 1) server

/-- C3. `postPayment` under a persistent network failure (no response)
surfaces the raw transport-library error to its caller, not a
synthesized `ProblemDetails`: its final `throw error` rethrows the axios
error verbatim when `error.response?.data` is absent. -/
theorem claim_C3_counterexample :
    ((PaymentService.postPayment
      (alwaysNetworkError (α := Unit) (fun _ => "Network Error"))).1).isRawTransportError
      = true ∧
    (PaymentService.postPayment
      (alwaysNetworkError (α := Unit) (fun _ => "Network Error"))).1
      = .error (.axiosErr ⟨none, "Network Error"⟩) := by
  exact ⟨rfl, rfl⟩

/-- C3 (amended). `getPaymentMethods` never surfaces a raw
transport-library error: a structured final error body is surfaced
unchanged and any other final failure becomes the synthesized
`{title: Unknown error, status: 500}` problem. `postPayment` surfaces a
structured final body unchanged, but when the final failure carries no
structured body (e.g. a pure network error) it rethrows the raw
transport error instead of synthesizing a `ProblemDetails`. -/
theorem claim_C3_error_normalization (α : Type)
    (server : Nat → Except AxiosFailure α) (st : Nat) (p : ProblemDetails)
    (m : String) (msg : Nat → String) :
    ((PaymentMethodService.getPaymentMethods server).1).isRawTransportError = false ∧
    PaymentMethodService.finalThrow ⟨some ⟨st, some p⟩, m⟩ = .problem p ∧
    PaymentMethodService.finalThrow ⟨some ⟨st, none⟩, m⟩
      = .problem (PaymentMethodService.synthProblem m) ∧
    PaymentMethodService.finalThrow ⟨none, m⟩
      = .problem (PaymentMethodService.synthProblem m) ∧
    PaymentService.finalThrow ⟨some ⟨st, some p⟩, m⟩ = .problem p ∧
    (PaymentService.postPayment (alwaysNetworkError (α := α) msg)).1
      = .error (.axiosErr ⟨none, msg 2⟩) := by
  refine ⟨PaymentMethodService.getPaymentMethodsGo_not_raw 3 0 server,
    rfl, rfl, rfl, rfl, rfl⟩

/-- C4. A 401 on a countries-service call does not clear that module's
token: the interceptor's 401 branch is an empty comment, so the next
call through the module still sends the stale `Authorization` header. -/
theorem claim_C4_counterexample :
    authHeader (CountrieService.onResponseError (some "stale") 401)
      = some "Bearer stale" ∧
    authHeader (CountrieService.onResponseError (some "stale") 401) ≠ none := by
  exact ⟨rfl, by decide⟩

/-- C4 (amended). Only the authorize-client and identity-token modules
clear their module-level token on a 401; the countries and
payment-transactions interceptors leave the token unchanged on every
status, and the payment module redirects to `/login` on 401 without
clearing its stored token — each token is module-local, so a call
through such a module after a 401 still attaches the stale
`Bearer` header. -/
theorem claim_C4_token_clearing (t : Option String) (s : String) (st : Nat) :
    AuthorizeService.onResponseError t 401 = none ∧
    IdentityService.onResponseError t 401 = none ∧
    CountrieService.onResponseError t st = t ∧
    PaymentTransactionService.onResponseError t st = t ∧
    PaymentService.onResponseError t 401 = (t, true) ∧
    authHeader (CountrieService.onResponseError (some s) 401)
      = some ("Bearer " ++ s) := by
  refine ⟨rfl, rfl, rfl, rfl, ?_, rfl⟩
  simp [PaymentService.onResponseError]

/-- C5. A successful `postIdentityToken` call returning
`{token: "abc"}` populates only the identity module's own token
variable: the subscriptions module's `accessToken` stays empty, so the
next subscriptions call omits the `Authorization` header rather than
sending `Bearer abc`. -/
theorem claim_C5_counterexample :
    (IdentityService.applySuccess
      ⟨none, none, none, none, none, none, none⟩ ⟨"abc"⟩).subsAccessToken = none ∧
    authHeader (IdentityService.applySuccess
      ⟨none, none, none, none, none, none, none⟩ ⟨"abc"⟩).subsAccessToken
      ≠ some "Bearer abc" := by
  exact ⟨rfl, by decide⟩

/-- C5 (amended). A successful identity-token call returning
`{token: "abc"}` sets the identity module's own token, so the next call
through the identity module's axios instance sends
`Authorization: Bearer abc`; the subscriptions module's token variable
(and hence the header of the next subscriptions call) is untouched,
being populated solely by the subscriptions module's own
`setAccessToken`. -/
theorem claim_C5_token_propagation (g : ModuleTokens) :
    (IdentityService.applySuccess g ⟨"abc"⟩).identityAuthToken = some "abc" ∧
    authHeader (IdentityService.applySuccess g ⟨"abc"⟩).identityAuthToken
      = some "Bearer abc" ∧
    (IdentityService.applySuccess g ⟨"abc"⟩).subsAccessToken = g.subsAccessToken ∧
    authHeader (IdentityService.applySuccess g ⟨"abc"⟩).subsAccessToken
      = authHeader g.subsAccessToken := by
  refine ⟨?_, ?_, ?_, ?_⟩ <;>
    simp [IdentityService.applySuccess, authHeader]

theorem PaymentMethodHooks.restorePrev_getQueriesData :
    ∀ (keys : List QueryKey)
      (c base : QueryKey → Option PaymentMethodsList) (k : QueryKey),
      restorePrev base (getQueriesData c keys) k
        = if k ∈ keys then c k else base k := by
  intro keys
  induction keys with
  | nil => intro c base k; simp [restorePrev, getQueriesData]
  | cons k0 rest ih =>
    intro c base k
    have hstep : restorePrev base (getQueriesData c (k0 :: rest))
        = restorePrev (setQueryData base k0 (c k0)) (getQueriesData c rest) := by
      simp [restorePrev, getQueriesData]
    rw [hstep, ih]
    by_cases hr : k ∈ rest
    · simp [hr]
    · by_cases he : k = k0
      · subst he; simp [hr, setQueryData]
      · simp [hr, he, setQueryData]

/-- C6 (confirmed). The optimistic-prepend mutations roll back by full
snapshot restore: `useCreateCustomer`'s `onError` applied to the
`onMutate`-patched cache and its captured context returns the cache to
exactly its pre-mutation state at every key (while the patch itself
prepends the placeholder, growing the list from N to N+1); likewise
`useCreatePaymentMethod`'s restore loop over the `getQueriesData`
snapshot returns every key of the payment-methods cache to its exact
pre-mutation value. -/
theorem claim_C6_rollback_exact_snapshot
    (c : QueryKey → Option CustomersList) (n : PostCustomerRequest)
    (now : Nat) (p : CustomersList)
    (c2 : QueryKey → Option PaymentMethodsList) (keys : List QueryKey)
    (t rid : String) :
    (∀ k, CustomerHooks.createOnError (CustomerHooks.createOnMutate c n now).1
        (CustomerHooks.createOnMutate c n now).2 k = c k) ∧
    (CustomerHooks.createPatch p n now).entries
      = CustomerHooks.optimisticCustomer n now :: p.entries ∧
    (CustomerHooks.createPatch p n now).entries.length = p.entries.length + 1 ∧
    (∀ k, PaymentMethodHooks.restorePrev
        (PaymentMethodHooks.createOnMutate c2 keys t rid).1
        (PaymentMethodHooks.createOnMutate c2 keys t rid).2 k = c2 k) := by
  refine ⟨?_, rfl, by simp [CustomerHooks.createPatch], ?_⟩
  · intro k
    cases h : c CustomerHooks.createKey with
    | none => simp [CustomerHooks.createOnMutate, h, CustomerHooks.createOnError]
    | some q =>
      by_cases hk : k = CustomerHooks.createKey
      · subst hk
        simp [CustomerHooks.createOnMutate, h, CustomerHooks.createOnError,
          setQueryData]
      · simp [CustomerHooks.createOnMutate, h, CustomerHooks.createOnError,
          setQueryData, hk]
  · intro k
    rw [PaymentMethodHooks.createOnMutate,
      PaymentMethodHooks.restorePrev_getQueriesData]
    by_cases hm : k ∈ keys
    · simp [hm]
    · simp [hm, PaymentMethodHooks.setQueriesData]

/-- C7 (confirmed). The optimistic patch of `useRecurringPaymentMethod`
rewrites every cached entry's `isDefault` to exactly "this entry's id is
the mutated `paymentMethodId`" — so the selected method alone becomes
default, every other entry's flag is cleared, and all other fields of
every entry are unchanged; a missing cache value is left alone. -/
theorem claim_C7_default_flag_exclusivity (old : PaymentMethodsList)
    (pmId : String) :
    RecurringPaymentMethodHook.updater pmId (some old)
      = some { old with
               entries := old.entries.map (fun pm =>
                 { pm with isDefault := decide (pm.id = pmId) }) } ∧
    RecurringPaymentMethodHook.updater pmId none = none := by
  constructor
  · have hfun : ∀ pm : GetPaymentMethodResponse,
        (if pm.id = pmId then { pm with isDefault := true }
         else { pm with isDefault := false })
          = { pm with isDefault := decide (pm.id = pmId) } := by
      intro pm
      by_cases h : pm.id = pmId <;> simp [h]
    simp only [RecurringPaymentMethodHook.updater, hfun]
  · rfl

theorem invalidatedKeys_append (l l' : List CacheCmd) :
    invalidatedKeys (l ++ l') = invalidatedKeys l ++ invalidatedKeys l' := by
  simp [invalidatedKeys]

theorem invalidatedKeys_setData_map (l : List QueryKey) :
    invalidatedKeys (l.map .setData) = [] := by
  induction l with
  | nil => rfl
  | cons a l ih => simp [invalidatedKeys] at ih ⊢

/-- C8. A failed `useRecurringPaymentMethod` mutation invalidates
nothing: the hook performs its invalidations in `onSuccess` only and
defines no `onSettled`, so after a failed call the payment-methods keys
are not marked for refetch. -/
theorem claim_C8_counterexample :
    invalidatedKeys (RecurringPaymentMethodHook.failureCmds true) = [] ∧
    PaymentMethodHooks.pmKey ∉
      invalidatedKeys (RecurringPaymentMethodHook.failureCmds true) := by
  exact ⟨rfl, by decide⟩

/-- C8 (amended). `useCreatePaymentMethod` and `useCreateSubscription`
invalidate their resource keys in `onSettled`, hence after failure as
well as success; but `useRecurringPaymentMethod` invalidates the
payment-methods and default-payment-method keys only in `onSuccess` —
after a failed call it performs the rollback without any invalidation. -/
theorem claim_C8_invalidation_on_settle (prevKeys : List QueryKey)
    (hasPrev hasPrevious : Bool) :
    invalidatedKeys (PaymentMethodHooks.createFailureCmds prevKeys)
      = [PaymentMethodHooks.pmKey] ∧
    invalidatedKeys (SubscriptionHooks.createFailureCmds hasPrev)
      = [[.str "subscriptions"]] ∧
    invalidatedKeys RecurringPaymentMethodHook.successCmds
      = [PaymentMethodHooks.pmKey, [.str "default-payment-method"]] ∧
    invalidatedKeys (RecurringPaymentMethodHook.failureCmds hasPrevious) = [] := by
  refine ⟨?_, ?_, rfl, ?_⟩
  · rw [PaymentMethodHooks.createFailureCmds, invalidatedKeys_append,
      PaymentMethodHooks.createOnErrorCmds, invalidatedKeys_setData_map]
    rfl
  · cases hasPrev <;>
      simp [SubscriptionHooks.createFailureCmds,
        SubscriptionHooks.createOnErrorCmds,
        SubscriptionHooks.createOnSettledCmds, invalidatedKeys]
  · cases hasPrevious <;>
      simp [RecurringPaymentMethodHook.failureCmds,
        RecurringPaymentMethodHook.onErrorCmds, invalidatedKeys]

/-- The concrete payment method used in the C9 interleaving. -/
def c9InitialEntry : GetPaymentMethodResponse :=
  { id := "pm1", isDefault := false, paymentMethodType := "card",
    creditCardData := none }

/-- The confirmed server snapshot before the C9 interleaving. -/
def c9Initial : Option PaymentMethodsList :=
  some { entries := [c9InitialEntry], total := 1, page := 1, pageSize := 10 }

/-- The state reached by running `useCreatePaymentMethod`'s `onMutate`
and then, before it settles, `useRecurringPaymentMethod`'s `onMutate`
on the same `['payment-methods']` entry. -/
def c9Trace : MutTrace PaymentMethodsList :=
  MutTrace.beginMutation (RecurringPaymentMethodHook.updater "pm1")
    (MutTrace.beginMutation (PaymentMethodHooks.createUpdater "sepa" "x")
      ⟨c9Initial, []⟩)

/-- C9. Two overlapping unreconciled optimistic patches for the same
cache entry do coexist: after `useCreatePaymentMethod.onMutate` followed
by `useRecurringPaymentMethod.onMutate` (neither settled), two rollback
contexts are pending and the visible value is neither the confirmed
snapshot nor that snapshot with a single one of the two patches
overlaid. -/
theorem claim_C9_counterexample :
    c9Trace.snapshots.length = 2 ∧
    c9Trace.cache ≠ c9Initial ∧
    c9Trace.cache ≠ PaymentMethodHooks.createUpdater "sepa" "x" c9Initial ∧
    c9Trace.cache ≠ RecurringPaymentMethodHook.updater "pm1" c9Initial := by
  refine ⟨rfl, by decide, by decide, by decide⟩

/-- C9 (amended). A cache entry may carry several pending optimistic
patches at once, but rollback baselines compose in LIFO order: each
`onMutate` snapshots the value it sees, so the second mutation's
rollback baseline is exactly the first mutation's patched state — the
second mutation's rollback restores the first patch, and rolling both
back restores the confirmed snapshot. -/
theorem claim_C9_lifo_rollback (c0 : Option PaymentMethodsList)
    (t rid pmId : String) :
    (MutTrace.beginMutation (RecurringPaymentMethodHook.updater pmId)
      (MutTrace.beginMutation (PaymentMethodHooks.createUpdater t rid)
        ⟨c0, []⟩)).snapshots
      = [PaymentMethodHooks.createUpdater t rid c0, c0] ∧
    ((MutTrace.beginMutation (RecurringPaymentMethodHook.updater pmId)
      (MutTrace.beginMutation (PaymentMethodHooks.createUpdater t rid)
        ⟨c0, []⟩)).rollbackTop).cache
      = PaymentMethodHooks.createUpdater t rid c0 ∧
    ((MutTrace.beginMutation (RecurringPaymentMethodHook.updater pmId)
      (MutTrace.beginMutation (PaymentMethodHooks.createUpdater t rid)
        ⟨c0, []⟩)).rollbackTop).rollbackTop
      = ⟨c0, []⟩ := by
  exact ⟨rfl, rfl, rfl⟩

/-- C10 (confirmed). `useCreateCustomer`'s optimistic patch reads and
writes only the bare `['customers']` key, while `useCustomers` stores
its data under `['customers', params]`: for every `params` the patched
cache is unchanged at `['customers', params]`, and that key is reached
only by the post-settle invalidation, whose `['customers']` filter
matches it by prefix. -/
theorem claim_C10_patch_key_frame (c : QueryKey → Option CustomersList)
    (n : PostCustomerRequest) (now : Nat) (p : CustomersQueryParams) :
    (CustomerHooks.createOnMutate c n now).1 (CustomerHooks.customersQueryKey p)
      = c (CustomerHooks.customersQueryKey p) ∧
    keyMatches CustomerHooks.createKey (CustomerHooks.customersQueryKey p)
      = true := by
  constructor
  · cases h : c CustomerHooks.createKey with
    | none =>
      have h' : c [KeyPart.str "customers"] = none := h
      simp [CustomerHooks.createOnMutate, CustomerHooks.createKey, h']
    | some q =>
      have h' : c [KeyPart.str "customers"] = some q := h
      simp [CustomerHooks.createOnMutate, CustomerHooks.createKey, h',
        setQueryData, CustomerHooks.customersQueryKey]
  · simp [keyMatches, CustomerHooks.createKey, CustomerHooks.customersQueryKey]
